import Mathlib

/-!
Verification of the Ticket Allocation & Draw Engine of the lottery bot.

The repository contains two sibling implementations of the same engine:

* `Main.py` — modelled below in namespace `MainUpper`.  Its commit path is
  admin verification (`AdminSystem.verify_payment` calling
  `TicketModel.mark_as_sold`), its draw is `LotterySystem.conduct_draw`
  followed by `LotterySystem.reset_tickets`.
* `main.py` — modelled below in namespace `MainLower`.  Its commit path is
  the direct purchase confirmation (`process_payment_proof`), its draw is
  `conduct_lottery_draw`, bonuses live in `award_loyalty_bonus` and
  `claim_referral_bonus`.

Modelling conventions (a sequential, shallow embedding of the Firestore
state touched by the engine):

* The store is modelled per denomination: a `State` holds the ticket
  collection `tickets_{value}`, the sale records of that denomination from
  `lottery_registrations` (the code always filters that collection by
  `ticket_value`), the draw records of that denomination, the users'
  per-denomination purchase counters and balances, projected to this
  denomination, as association lists keyed by user id.
* Firestore document updates on an existing document are modelled as a map
  over the collection keyed by the ticket number (document ids are the
  decimal representations of the numbers and are unique per collection);
  an `update` on a missing document raises in Python and is caught by the
  surrounding `try`, leaving the store unchanged, so it is modelled as a
  no-op on the store.
* `random.shuffle` is modelled by passing the shuffled list as an argument
  together with a permutation hypothesis; `random.choice(l)` is modelled by
  an extra seed argument `k` selecting `l[k % len(l)]`.
* Rounds have no explicit id in the code (a draw deletes and recreates the
  pool); the model keeps a ghost `round` counter, incremented exactly when
  a completed draw resets the pool, and tags each draw record with the
  round in which it was created, so that per-round properties can be
  stated.
-/

namespace Lottery

/-- Config.TOTAL_TICKETS_PER_VALUE: tickets per denomination and round. -/
def TOTAL_TICKETS_PER_VALUE : Nat := 100

/-- Config.REWARDS: the fixed prize table per denomination. -/
def REWARDS (value : Nat) : List Nat :=
  if value = 100 then [5000, 2000, 1000]
  else if value = 200 then [10000, 4000, 2000]
  else if value = 300 then [15000, 6000, 3000]
  else []

/-- Config.REFERRAL_REQUIRED_COUNT: referrals needed for the bonus. -/
def REFERRAL_REQUIRED_COUNT : Nat := 10

/-- A ticket document of the `tickets_{value}` collection: number (also the
document id), sale state, owner, and the free-ticket marker fields. -/
structure Ticket where
  number : Nat
  isSold : Bool
  buyerId : Option String
  isFree : Bool
  freeReason : Option String
deriving DecidableEq

/-- A sale record of the `lottery_registrations` collection, projected to a
single denomination (the code always queries it filtered by ticket value). -/
structure SaleRec where
  ticketNumber : Nat
  buyerId : String
  isFree : Bool
  freeReason : Option String
deriving DecidableEq

/-- Outcome of a draw attempt, as observable from the store and the chat:
`insufficientEntries` is the "Draw postponed, not enough tickets sold"
branch, `indexError` is an uncaught IndexError inside the selection loop
(caught by the caller, nothing written), `completed` means a draw record
was created. -/
inductive DrawOutcome where
  | insufficientEntries
  | indexError
  | completed
deriving DecidableEq

/-- The fresh all-available pool 1..TOTAL created by initialization and by
the post-draw reset. -/
def freshTickets : List Ticket :=
  (List.range TOTAL_TICKETS_PER_VALUE).map
    (fun i => ⟨i + 1, false, none, false, none⟩)

/-- Increment of an association-list counter, as a Firestore numeric
`Increment(1)`: bump the entry if present, create it at 1 otherwise. -/
def bumpCount : List (String × Nat) → String → List (String × Nat)
  | [], u => [(u, 1)]
  | (x, c) :: rest, u =>
      if x = u then (x, c + 1) :: rest else (x, c) :: bumpCount rest u

/-- Lookup of an association-list counter, missing entries count as 0. -/
def countOf : List (String × Nat) → String → Nat
  | [], _ => 0
  | (x, c) :: rest, u => if x = u then c else countOf rest u

/-- The per-document field update shared by every commit path: the ticket
document with number n gets its sold flag, owner and free-ticket fields
set, every other document is untouched. -/
def markTicket (n : Nat) (u : String) (isFree : Bool)
    (freeReason : Option String) (t : Ticket) : Ticket :=
  if t.number == n then
    { t with isSold := true, buyerId := some u,
             isFree := isFree, freeReason := freeReason }
  else t

end Lottery

namespace MainUpper

open Lottery

/-- A winner entry of a Main.py draw record: position (rank), ticket
number, user id and prize amount. -/
structure Winner where
  position : Nat
  ticketNumber : Nat
  userId : String
  prize : Nat
deriving DecidableEq

/-- A Main.py draw record (collection `draws`), tagged with the ghost
round in which it was created. -/
structure DrawRec where
  winners : List Winner
  roundTag : Nat
deriving DecidableEq

/-- The per-denomination store state touched by Main.py's engine.  `round`
is the ghost round counter described in the file header. -/
structure State where
  tickets : List Ticket
  registrations : List SaleRec
  draws : List DrawRec
  purchaseCount : List (String × Nat)
  balance : List (String × Nat)
  round : Nat
deriving DecidableEq

/-- The empty store before startup initialization. -/
def init0 : State := ⟨[], [], [], [], [], 0⟩

/-- TicketModel.mark_as_sold (Main.py 159-177): an unconditional document
update setting is_sold, buyer_id and the free-ticket fields, followed by
appending a record to lottery_registrations.  There is no check of the
previous is_sold value.  If the ticket document does not exist the update
raises (caught by the caller) and nothing is written. -/
def mark_as_sold (s : State) (n : Nat) (u : String)
    (isFree : Bool) (freeReason : Option String) : State :=
  if s.tickets.any (fun t => t.number == n) then
    { s with
      tickets := s.tickets.map (markTicket n u isFree freeReason),
      registrations := s.registrations ++ [⟨n, u, isFree, freeReason⟩] }
  else s

/-- The commit portion of AdminSystem.verify_payment (Main.py 796-810):
mark the ticket sold and atomically increment the buyer's
tickets_purchased_count for this denomination. -/
def verify_commit (s : State) (n : Nat) (u : String) : State :=
  { mark_as_sold s n u false none with
      purchaseCount := bumpCount s.purchaseCount u }

/-- LotterySystem.initialize_tickets (Main.py 181-210), one denomination:
if fewer than TOTAL tickets exist, delete them all and create the full
fresh pool as one batch; otherwise do nothing. -/
def init_tickets (s : State) : State :=
  if s.tickets.length < TOTAL_TICKETS_PER_VALUE then
    { s with tickets := freshTickets }
  else s

/-- TicketModel.get_available restricted to the set of numbers (Main.py
151-157): the numbers of the not-sold ticket documents.  Stream order is
modelled separately for the ordering claim. -/
def availableNumbers (s : State) : List Nat :=
  (s.tickets.filter (fun t => !t.isSold)).map (·.number)

/-- The winner-selection loop of LotterySystem.conduct_draw (Main.py
232-255).  The Python loop runs `for i in range(TOTAL)`, breaking once 3
winners are found; indexing `sold_tickets[i]` past the end of the list
raises IndexError (modelled by `none`).  The fuel argument counts the
remaining loop iterations, the list argument the remaining records. -/
def pickGo (value : Nat) :
    List SaleRec → Nat → List Winner → List Nat → List String →
    Option (List Winner)
  | _, 0, winners, _, _ => some winners
  | [], _ + 1, winners, _, _ =>
      if 3 ≤ winners.length then some winners else none
  | r :: rest, fuel + 1, winners, drawnNums, drawnBuyers =>
      if 3 ≤ winners.length then some winners
      else if r.ticketNumber ∈ drawnNums ∨ r.buyerId ∈ drawnBuyers then
        pickGo value rest fuel winners drawnNums drawnBuyers
      else
        pickGo value rest fuel
          (winners ++ [⟨winners.length + 1, r.ticketNumber, r.buyerId,
                        (REWARDS value).getD winners.length 0⟩])
          (drawnNums ++ [r.ticketNumber])
          (drawnBuyers ++ [r.buyerId])

/-- Winner selection of conduct_draw on the shuffled record list. -/
def pickWinners (value : Nat) (sold : List SaleRec) : Option (List Winner) :=
  pickGo value sold TOTAL_TICKETS_PER_VALUE [] [] []

/-- A single balance increment (UserModel.update_user_balance). -/
def creditOne : List (String × Nat) → String → Nat → List (String × Nat)
  | [], u, p => [(u, p)]
  | (x, c) :: rest, u, p =>
      if x = u then (x, c + p) :: rest else (x, c) :: creditOne rest u p

/-- Credit each winner's balance by their prize (Main.py 284-290, an
atomic increment per winner). -/
def creditAll (bal : List (String × Nat)) : List Winner → List (String × Nat)
  | [] => bal
  | w :: rest => creditAll (creditOne bal w.userId w.prize) rest

/-- LotterySystem.conduct_draw followed by reset_tickets (Main.py
212-331), given the shuffled registration list: fewer than 3 records
postpones the draw untouched; an IndexError in the selection loop is
caught with nothing written; otherwise the draw record is created, the
winners' balances are credited, and the pool is reset (tickets recreated
fresh, registrations of this denomination deleted, ghost round advanced). -/
def conduct_draw (value : Nat) (s : State) (shuffled : List SaleRec) :
    State × DrawOutcome :=
  if shuffled.length < 3 then (s, .insufficientEntries)
  else
    match pickWinners value shuffled with
    | none => (s, .indexError)
    | some ws =>
        ({ tickets := freshTickets,
           registrations := [],
           draws := s.draws ++ [⟨ws, s.round⟩],
           purchaseCount := s.purchaseCount,
           balance := creditAll s.balance ws,
           round := s.round + 1 }, .completed)

/-- The state reached by a draw attempt (first component of conduct_draw). -/
def applyDraw (value : Nat) (s : State) (shuffled : List SaleRec) : State :=
  (conduct_draw value s shuffled).1

/-- The draw trigger evaluated after each verified sale (Main.py 832-837):
count the sold ticket documents and compare with the pool size.  No other
condition is checked. -/
def drawTrigger (s : State) : Bool :=
  TOTAL_TICKETS_PER_VALUE ≤ (s.tickets.filter (fun t => t.isSold)).length

/-- LotterySystem.award_loyalty_bonus (Main.py 339-368): pick a random
available number (seed k), mark it sold as a free loyalty ticket, and
count it toward the buyer's purchase count like a normal purchase. -/
def award_loyalty_bonus (s : State) (u : String) (k : Nat) : State :=
  let avail := availableNumbers s
  if avail.isEmpty then s
  else
    let n := avail.getD (k % avail.length) 0
    { mark_as_sold s n u true (some "Loyalty Bonus") with
        purchaseCount := bumpCount s.purchaseCount u }

/-- One sequential engine step on the per-denomination store: startup
initialization, a committed sale (admin verification or a bonus award —
every path goes through mark_as_sold plus the counter increment), or a
draw attempt on a shuffle of the registration list. -/
inductive Step (value : Nat) : State → State → Prop
  | setup (s : State) : Step value s (init_tickets s)
  | commit (s : State) (n : Nat) (u : String) (isFree : Bool)
      (freeReason : Option String) :
      Step value s
        { mark_as_sold s n u isFree freeReason with
            purchaseCount := bumpCount s.purchaseCount u }
  | draw (s : State) (shuffled : List SaleRec)
      (h : shuffled.Perm s.registrations) :
      Step value s (applyDraw value s shuffled)

/-- Reachability of a store state from the empty store. -/
def Reachable (value : Nat) (s : State) : Prop :=
  Relation.ReflTransGen (Step value) init0 s

/-- The number n belongs to a Sold ticket of the pool. -/
def soldAt (s : State) (n : Nat) : Bool :=
  s.tickets.any (fun t => t.number == n && t.isSold)

/-- The number n appears in some sale record of the round. -/
def recAt (s : State) (n : Nat) : Bool :=
  s.registrations.any (fun r => r.ticketNumber == n)

/-- The inductive invariant of the sequential engine: the pool is either
the untouched empty pre-startup store or has exactly TOTAL tickets with
pairwise distinct numbers; a number is Sold exactly when it is recorded;
draw records carry pairwise distinct round tags, all from past rounds; and
every draw record's winners are pairwise distinct in ticket number and in
buyer id. -/
def Inv (s : State) : Prop :=
  (s.tickets.length = TOTAL_TICKETS_PER_VALUE ∨
    (s.tickets = [] ∧ s.registrations = []))
  ∧ (s.tickets.map (·.number)).Nodup
  ∧ (∀ n, soldAt s n = recAt s n)
  ∧ (s.draws.map (·.roundTag)).Nodup
  ∧ (∀ d ∈ s.draws, d.roundTag < s.round)
  ∧ (∀ d ∈ s.draws,
      (d.winners.map (·.ticketNumber)).Nodup ∧ (d.winners.map (·.userId)).Nodup)

/-- Verified sales of tickets 1..k to k distinct buyers, one commit step
per ticket. -/
def sellSeq (s : State) : Nat → State
  | 0 => s
  | k + 1 =>
      let s' := sellSeq s k
      { mark_as_sold s' (k + 1) ("u" ++ Nat.repr (k + 1)) false none with
          purchaseCount :=
            bumpCount s'.purchaseCount ("u" ++ Nat.repr (k + 1)) }

end MainUpper

namespace MainLower

open Lottery

/-- The per-user document of main.py's userData collection, restricted to
the fields the engine reads: invited count, the one-shot referral flag and
the per-denomination purchase counters (value ↦ count). -/
structure UserData where
  invitedUsersCount : Nat
  referralBonusClaimed : Bool
  ticketsBought : List (Nat × Nat)
deriving DecidableEq

/-- A winner entry of a main.py draw record: rank, ticket id (a decimal
string in the store, modelled by its numeric value), winner id, reward. -/
structure WinnerB where
  rank : Nat
  ticketId : Nat
  winnerId : String
  reward : Nat
deriving DecidableEq

/-- A main.py draw record of the lotteryDraws collection. -/
structure DrawRecB where
  winners : List WinnerB
deriving DecidableEq

/-- The per-denomination store state touched by main.py's engine, together
with the acting user's document. -/
structure StateB where
  tickets : List Ticket
  registrations : List SaleRec
  draws : List DrawRecB
  user : UserData
deriving DecidableEq

/-- Outcome of the direct purchase confirmation. -/
inductive PurchaseOutcome where
  | purchased
  | alreadySold
deriving DecidableEq

/-- Outcome of the referral-bonus claim operation. -/
inductive ClaimOutcome where
  | claimed (n : Nat)
  | noTicketsAvailable
  | notEligibleOrClaimed
deriving DecidableEq

/-- Bump a (value ↦ count) association list at one denomination, the
read-modify-write main.py performs on ticketsBoughtCount. -/
def bumpNat : List (Nat × Nat) → Nat → List (Nat × Nat)
  | [], v => [(v, 1)]
  | (x, c) :: rest, v =>
      if x = v then (x, c + 1) :: rest else (x, c) :: bumpNat rest v

/-- Lookup in a (value ↦ count) association list, missing entries are 0. -/
def countNat (l : List (Nat × Nat)) (v : Nat) : Nat :=
  match l.find? (fun p => p.1 == v) with
  | some p => p.2
  | none => 0

/-- Mark the ticket document with number n sold to u with the given free
marker (the document update shared by all main.py commit paths). -/
def markMap (ts : List Ticket) (n : Nat) (u : String)
    (isFree : Bool) (freeReason : Option String) : List Ticket :=
  ts.map (markTicket n u isFree freeReason)

/-- The unsold numbers collected by main.py's award and claim paths
(stream all documents, keep the unsold ones, parse the ids). -/
def availableB (ts : List Ticket) : List Nat :=
  (ts.filter (fun t => !t.isSold)).map (·.number)

/-- The commit portion of process_payment_proof (main.py 544-596): re-read
the ticket document; only if it exists and is not sold, mark it sold,
append a registration, and bump the buyer's ticketsBoughtCount for this
denomination; otherwise tell the buyer the number has just been sold and
change nothing. -/
def process_payment_commit (value : Nat) (s : StateB) (n : Nat)
    (u : String) : StateB × PurchaseOutcome :=
  match s.tickets.find? (fun t => t.number == n) with
  | some t =>
      if t.isSold then (s, .alreadySold)
      else
        ({ s with
            tickets := markMap s.tickets n u false none,
            registrations := s.registrations ++ [⟨n, u, false, none⟩],
            user := { s.user with
                        ticketsBought := bumpNat s.user.ticketsBought value } },
         .purchased)
  | none => (s, .alreadySold)

/-- award_loyalty_bonus (main.py 604-654): pick a random available number
(seed k), mark it sold as a free loyalty ticket and append a registration.
The user's ticketsBoughtCount is not touched by this function. -/
def award_loyalty_bonus (s : StateB) (u : String) (k : Nat) : StateB :=
  let avail := availableB s.tickets
  if avail.isEmpty then s
  else
    let n := avail.getD (k % avail.length) 0
    { s with
        tickets := markMap s.tickets n u true (some "Loyalty Bonus"),
        registrations := s.registrations ++ [⟨n, u, true, some "Loyalty Bonus"⟩] }

/-- claim_referral_bonus (main.py 760-830), acting on the 200-Birr
collection: guarded by invitedUsersCount ≥ 10 and the claimed flag being
false; if an available ticket exists, mark it sold as a free referral
ticket, append a registration and set referralBonusClaimed; with no
available ticket nothing changes (the flag stays false); outside the guard
the claim is refused. -/
def claim_referral_bonus (s : StateB) (u : String) (k : Nat) :
    StateB × ClaimOutcome :=
  if 10 ≤ s.user.invitedUsersCount ∧ s.user.referralBonusClaimed = false then
    let avail := availableB s.tickets
    if avail.isEmpty then (s, .noTicketsAvailable)
    else
      let n := avail.getD (k % avail.length) 0
      ({ s with
          tickets := markMap s.tickets n u true (some "Referral Bonus"),
          registrations :=
            s.registrations ++ [⟨n, u, true, some "Referral Bonus"⟩],
          user := { s.user with referralBonusClaimed := true } },
       .claimed n)
  else (s, .notEligibleOrClaimed)

/-- The inner scan of conduct_lottery_draw (main.py 240-259): the first
record whose ticket and buyer have not been drawn yet. -/
def findCandidate (eligible : List SaleRec) (drawnNums : List Nat)
    (drawnBuyers : List String) : Option SaleRec :=
  eligible.find? (fun r =>
    !(drawnNums.contains r.ticketNumber) && !(drawnBuyers.contains r.buyerId))

/-- The outer loop of conduct_lottery_draw: up to `min 3 len` iterations,
each adding the first fresh candidate or stopping when none is left.  The
reward is indexed by the loop counter i, defaulting to 0 past the table. -/
def pickLowerGo (rewards : List Nat) (eligible : List SaleRec) :
    Nat → Nat → List WinnerB → List Nat → List String → List WinnerB
  | 0, _, winners, _, _ => winners
  | fuel + 1, i, winners, drawnNums, drawnBuyers =>
      match findCandidate eligible drawnNums drawnBuyers with
      | none => winners
      | some r =>
          pickLowerGo rewards eligible fuel (i + 1)
            (winners ++ [⟨i + 1, r.ticketNumber, r.buyerId, rewards.getD i 0⟩])
            (drawnNums ++ [r.ticketNumber])
            (drawnBuyers ++ [r.buyerId])

/-- Winner selection of conduct_lottery_draw on the shuffled list. -/
def pickLower (rewards : List Nat) (eligible : List SaleRec) : List WinnerB :=
  pickLowerGo rewards eligible (min 3 eligible.length) 0 [] [] []

/-- conduct_lottery_draw (main.py 211-282), given the shuffled eligible
records: fewer than 3 records postpones the draw untouched; otherwise a
draw record with the selected winners (possibly fewer than 3) is created.
No balances are credited and no reset happens inside this function. -/
def conduct_lottery_draw (value : Nat) (s : StateB)
    (shuffled : List SaleRec) : StateB × DrawOutcome :=
  if shuffled.length < 3 then (s, .insufficientEntries)
  else
    ({ s with draws := s.draws ++ [⟨pickLower (REWARDS value) shuffled⟩] },
     .completed)

/-- init_tickets_firestore (main.py 111-149), one denomination: if the set
of existing document ids has fewer than TOTAL elements, add the missing
numbers as fresh unsold tickets in one batch; existing documents are never
touched. -/
def init_tickets_firestore (ts : List Ticket) : List Ticket :=
  let ids := (ts.map (·.number)).dedup
  if ids.length < TOTAL_TICKETS_PER_VALUE then
    ts ++ (List.range TOTAL_TICKETS_PER_VALUE).filterMap (fun i =>
      if (i + 1) ∈ ids then none
      else some ⟨i + 1, false, none, false, none⟩)
  else ts

/-- The available-number listing of select_ticket_value (main.py 444-454):
collect the numbers of the unsold documents, then sort ascending. -/
def select_ticket_value_numbers (ts : List Ticket) : List Nat :=
  List.insertionSort (· ≤ ·) (availableB ts)

end MainLower

namespace StreamOrder

open Lottery

/-- A ticket document as read by TicketModel.get_available, keyed by its
document id (the decimal representation of the number). -/
structure TicketDoc where
  isSold : Bool
deriving DecidableEq

/-- Lexicographic order on document ids, character by character by code
point — the order in which Firestore stores and streams document names. -/
def keyLe : List Char → List Char → Bool
  | [], _ => true
  | _ :: _, [] => false
  | a :: as, b :: bs =>
      if a.val < b.val then true
      else if b.val < a.val then false
      else keyLe as bs

/-- Insertion of a document into an id-sorted list. -/
def insertDoc (p : String × TicketDoc) :
    List (String × TicketDoc) → List (String × TicketDoc)
  | [] => [p]
  | q :: rest =>
      if keyLe p.1.data q.1.data then p :: q :: rest
      else q :: insertDoc p rest

/-- Firestore streams the documents of a collection in ascending document
id (lexicographic string) order when no order_by is given; the collection
is modelled as an unordered association list and the stream as the sort by
id. -/
def streamDocs : List (String × TicketDoc) → List (String × TicketDoc)
  | [] => []
  | p :: rest => insertDoc p (streamDocs rest)

/-- Numeric value of a decimal document id (int(doc.id) in Python). -/
def parseNat (cs : List Char) : Nat :=
  cs.foldl (fun acc c => acc * 10 + (c.toNat - 48)) 0

/-- TicketModel.get_available (Main.py 151-157): stream the not-sold
documents and parse each document id as a number — in stream order, with
no numeric sort applied. -/
def get_available (docs : List (String × TicketDoc)) : List Nat :=
  ((streamDocs docs).filter (fun d => !d.2.isSold)).map
    (fun d => parseNat d.1.data)

end StreamOrder

section ExampleStates

open Lottery

/-- A store whose ticket 5 is already sold to alice, with its matching
sale record. -/
def exSold : MainUpper.State :=
  ⟨[⟨5, true, some "alice", false, none⟩], [⟨5, "alice", false, none⟩],
   [], [("alice", 1)], [], 0⟩

/-- The store right after startup initialization. -/
def stInit : MainUpper.State := MainUpper.init_tickets MainUpper.init0

/-- Ticket 1 verified for alice (a first pending payment for number 1). -/
def stAlice : MainUpper.State :=
  { MainUpper.mark_as_sold stInit 1 "alice" false none with
      purchaseCount := bumpCount stInit.purchaseCount "alice" }

/-- Ticket 1 verified again, now for bob (a second pending payment for the
same number, both recorded while the number was still available). -/
def stBob : MainUpper.State :=
  { MainUpper.mark_as_sold stAlice 1 "bob" false none with
      purchaseCount := bumpCount stAlice.purchaseCount "bob" }

/-- A fully sold pool: 100 sold tickets owned by 100 distinct buyers. -/
def soldPool : List Ticket :=
  (List.range 100).map
    (fun i => ⟨i + 1, true, some ("u" ++ Nat.repr (i + 1)), false, none⟩)

/-- The matching 100 sale records of the fully sold pool. -/
def regs100 : List SaleRec :=
  (List.range 100).map (fun i => ⟨i + 1, "u" ++ Nat.repr (i + 1), false, none⟩)

/-- A store with a fully sold pool and an already existing draw record for
the current round. -/
def exC3 : MainUpper.State := ⟨soldPool, regs100, [⟨[], 0⟩], [], [], 0⟩

/-- Three sale records all bought by the same buyer. -/
def exRegs3 : List SaleRec :=
  [⟨1, "bob", false, none⟩, ⟨2, "bob", false, none⟩, ⟨3, "bob", false, none⟩]

/-- Three sold tickets all owned by that same buyer. -/
def bobTickets : List Ticket :=
  [⟨1, true, some "bob", false, none⟩, ⟨2, true, some "bob", false, none⟩,
   ⟨3, true, some "bob", false, none⟩]

/-- A Main.py store holding exactly the three same-buyer sales, a
forced-draw scenario for a round with only three sales by one buyer. -/
def exC6 : MainUpper.State := ⟨bobTickets, exRegs3, [], [], [], 0⟩

/-- The same three-sales-one-buyer round in the main.py store. -/
def exC6L : MainLower.StateB := ⟨bobTickets, exRegs3, [], ⟨0, false, []⟩⟩

/-- A Main.py store with only two sales committed. -/
def exC5U : MainUpper.State :=
  ⟨[⟨1, true, some "ann", false, none⟩, ⟨2, true, some "ben", false, none⟩],
   [⟨1, "ann", false, none⟩, ⟨2, "ben", false, none⟩], [], [], [], 0⟩

/-- A main.py store with only two sales committed. -/
def exC5L : MainLower.StateB :=
  ⟨[⟨1, true, some "ann", false, none⟩, ⟨2, true, some "ben", false, none⟩],
   [⟨1, "ann", false, none⟩, ⟨2, "ben", false, none⟩], [], ⟨0, false, []⟩⟩

/-- A Main.py store with one available ticket and a buyer who already
holds 9 tickets of this denomination. -/
def exC8U : MainUpper.State :=
  ⟨[⟨7, false, none, false, none⟩], [], [], [("dave", 9)], [], 0⟩

/-- The fully sold reachable store: startup initialization followed by 100
verified sales to 100 distinct buyers. -/
def stFull : MainUpper.State := MainUpper.sellSeq stInit 100

/-- The store after the automatic draw on the fully sold pool (identity
shuffle). -/
def stDrawn : MainUpper.State :=
  MainUpper.applyDraw 100 stFull stFull.registrations

/-- A main.py store with ticket 3 sold to alice and ticket 7 available. -/
def exLowerSold : MainLower.StateB :=
  ⟨[⟨3, true, some "alice", false, none⟩, ⟨7, false, none, false, none⟩],
   [⟨3, "alice", false, none⟩], [], ⟨0, false, [(100, 3)]⟩⟩

/-- A main.py store with one available ticket and a loyalty-eligible user
who has bought 10 tickets of the 100 denomination. -/
def exC8 : MainLower.StateB :=
  ⟨[⟨7, false, none, false, none⟩], [], [], ⟨0, false, [(100, 10)]⟩⟩

/-- A main.py 200-Birr store with two available tickets and a user with 10
invited users who has not claimed the referral bonus. -/
def exC7 : MainLower.StateB :=
  ⟨[⟨4, false, none, false, none⟩, ⟨9, false, none, false, none⟩],
   [], [], ⟨10, false, []⟩⟩

/-- An unsold 100-Birr collection holding the documents with ids "2", "1"
and "10" (the stream sorts them as "1" < "10" < "2"). -/
def exDocs : List (String × StreamOrder.TicketDoc) :=
  [("2", ⟨false⟩), ("1", ⟨false⟩), ("10", ⟨false⟩)]

end ExampleStates



section HelperLemmas

open Lottery

lemma countOf_bumpCount (l : List (String × Nat)) (u : String) :
    countOf (bumpCount l u) u = countOf l u + 1 := by
  induction l with
  | nil => simp [bumpCount, countOf]
  | cons p rest ih =>
      obtain ⟨x, c⟩ := p
      by_cases h : x = u
      · subst h
        simp [bumpCount, countOf]
      · simp [bumpCount, countOf, h, ih]

lemma nodup_snoc {α : Type} (l : List α) (a : α) (h1 : l.Nodup) (h2 : a ∉ l) :
    (l ++ [a]).Nodup := by
  rw [List.nodup_append]
  refine ⟨h1, List.nodup_singleton a, ?_⟩
  intro x hx hy
  rw [List.mem_singleton] at hy
  subst hy
  exact h2 hx

lemma freshTickets_length : freshTickets.length = TOTAL_TICKETS_PER_VALUE := by
  simp [freshTickets]

lemma freshTickets_numbers :
    freshTickets.map (·.number) =
      (List.range TOTAL_TICKETS_PER_VALUE).map (· + 1) := by
  simp [freshTickets, List.map_map]

lemma freshTickets_numbers_nodup : (freshTickets.map (·.number)).Nodup := by
  rw [freshTickets_numbers]
  exact (List.nodup_range _).map (add_left_injective 1)

lemma freshTickets_unsold : ∀ t ∈ freshTickets, t.isSold = false := by
  intro t ht
  simp only [freshTickets, List.mem_map, List.mem_range] at ht
  obtain ⟨i, _, rfl⟩ := ht
  rfl

end HelperLemmas


section UpperInvariant

open Lottery MainUpper

lemma markTicket_number (n : Nat) (u : String) (f : Bool) (fr : Option String)
    (t : Ticket) : (markTicket n u f fr t).number = t.number := by
  unfold markTicket
  split <;> rfl

lemma markTicket_of_ne (n : Nat) (u : String) (f : Bool) (fr : Option String)
    (t : Ticket) (h : (t.number == n) = false) : markTicket n u f fr t = t := by
  unfold markTicket
  rw [h]
  rfl

lemma markTicket_isSold_of_eq (n : Nat) (u : String) (f : Bool)
    (fr : Option String) (t : Ticket) (h : (t.number == n) = true) :
    (markTicket n u f fr t).isSold = true := by
  unfold markTicket
  rw [h]
  rfl

lemma markTicket_isSold_of_sold (n : Nat) (u : String) (f : Bool)
    (fr : Option String) (t : Ticket) (h : t.isSold = true) :
    (markTicket n u f fr t).isSold = true := by
  unfold markTicket
  split
  · rfl
  · exact h

lemma mark_tickets_map_number (s : State) (n : Nat) (u : String) (f : Bool)
    (fr : Option String) :
    (mark_as_sold s n u f fr).tickets.map (·.number) =
      s.tickets.map (·.number) := by
  unfold mark_as_sold
  split
  · dsimp only
    rw [List.map_map]
    apply List.map_congr_left
    intro t _
    exact markTicket_number n u f fr t
  · rfl

lemma mark_tickets_length (s : State) (n : Nat) (u : String) (f : Bool)
    (fr : Option String) :
    (mark_as_sold s n u f fr).tickets.length = s.tickets.length := by
  have := congrArg List.length (mark_tickets_map_number s n u f fr)
  simpa using this

lemma soldAt_mark_iff (s : State) (n m : Nat) (u : String) (f : Bool)
    (fr : Option String)
    (hg : s.tickets.any (fun t => t.number == n) = true) :
    soldAt (mark_as_sold s n u f fr) m = true ↔
      (soldAt s m = true ∨ m = n) := by
  unfold mark_as_sold
  rw [if_pos hg]
  unfold soldAt
  dsimp only
  simp only [List.any_eq_true, List.mem_map, Bool.and_eq_true, beq_iff_eq]
  constructor
  · rintro ⟨t', ⟨t, ht, rfl⟩, hnum, hsold⟩
    rw [markTicket_number] at hnum
    by_cases hc : (t.number == n) = true
    · right
      have h1 : t.number = n := by simpa using hc
      omega
    · left
      have hc' : (t.number == n) = false := by simpa using hc
      refine ⟨t, ht, hnum, ?_⟩
      rw [markTicket_of_ne n u f fr t hc'] at hsold
      exact hsold
  · rintro (⟨t, ht, hnum, hsold⟩ | rfl)
    · exact ⟨markTicket n u f fr t, ⟨t, ht, rfl⟩,
        by rw [markTicket_number]; exact hnum,
        markTicket_isSold_of_sold n u f fr t hsold⟩
    · rw [List.any_eq_true] at hg
      obtain ⟨t, ht, hn⟩ := hg
      exact ⟨markTicket m u f fr t, ⟨t, ht, rfl⟩,
        by rw [markTicket_number]; simpa using hn,
        markTicket_isSold_of_eq m u f fr t hn⟩

lemma recAt_mark_iff (s : State) (n m : Nat) (u : String) (f : Bool)
    (fr : Option String)
    (hg : s.tickets.any (fun t => t.number == n) = true) :
    recAt (mark_as_sold s n u f fr) m = true ↔
      (recAt s m = true ∨ m = n) := by
  unfold mark_as_sold
  rw [if_pos hg]
  unfold recAt
  dsimp only
  simp only [List.any_append, Bool.or_eq_true, List.any_cons, List.any_nil,
    Bool.or_false, beq_iff_eq]
  constructor
  · rintro (h | h)
    · exact Or.inl h
    · exact Or.inr h.symm
  · rintro (h | h)
    · exact Or.inl h
    · exact Or.inr h.symm

lemma inv_commit {s : State} (n : Nat) (u : String) (f : Bool)
    (fr : Option String) (h : Inv s) :
    Inv { mark_as_sold s n u f fr with
            purchaseCount := bumpCount s.purchaseCount u } := by
  obtain ⟨h1, h2, h3, h4, h5, h6⟩ := h
  by_cases hg : s.tickets.any (fun t => t.number == n) = true
  · have hdr : (mark_as_sold s n u f fr).draws = s.draws ∧
        (mark_as_sold s n u f fr).round = s.round := by
      unfold mark_as_sold
      split <;> exact ⟨rfl, rfl⟩
    refine ⟨?_, ?_, ?_, ?_, ?_, ?_⟩
    · left
      show (mark_as_sold s n u f fr).tickets.length = _
      rw [mark_tickets_length]
      rcases h1 with h1 | ⟨ht, _⟩
      · exact h1
      · rw [ht] at hg
        simp [List.any_nil] at hg
    · show ((mark_as_sold s n u f fr).tickets.map (·.number)).Nodup
      rw [mark_tickets_map_number]
      exact h2
    · intro m
      show soldAt (mark_as_sold s n u f fr) m = recAt (mark_as_sold s n u f fr) m
      rw [Bool.eq_iff_iff, soldAt_mark_iff s n m u f fr hg,
        recAt_mark_iff s n m u f fr hg, Bool.eq_iff_iff.mp (h3 m)]
    · show ((mark_as_sold s n u f fr).draws.map (·.roundTag)).Nodup
      rw [hdr.1]
      exact h4
    · intro d hd
      show d.roundTag < (mark_as_sold s n u f fr).round
      rw [hdr.2]
      exact h5 d (by rw [← hdr.1]; exact hd)
    · intro d hd
      exact h6 d (by rw [← hdr.1]; exact hd)
  · have hmark : mark_as_sold s n u f fr = s := by
      unfold mark_as_sold
      rw [if_neg hg]
    rw [hmark]
    exact ⟨h1, h2, h3, h4, h5, h6⟩

lemma any_sold_fresh (n : Nat) :
    (freshTickets.any (fun t => t.number == n && t.isSold)) = false := by
  rw [List.any_eq_false]
  intro t ht
  simp [freshTickets_unsold t ht]

lemma inv_setup {s : State} (h : Inv s) : Inv (init_tickets s) := by
  obtain ⟨h1, h2, h3, h4, h5, h6⟩ := h
  unfold init_tickets
  split
  · rename_i hlt
    have he : s.registrations = [] := by
      rcases h1 with h1 | h1
      · omega
      · exact h1.2
    refine ⟨Or.inl freshTickets_length, freshTickets_numbers_nodup, ?_, h4, h5, h6⟩
    intro n
    show soldAt { s with tickets := freshTickets } n =
      recAt { s with tickets := freshTickets } n
    have hl : soldAt { s with tickets := freshTickets } n = false :=
      any_sold_fresh n
    have hr : recAt { s with tickets := freshTickets } n = false := by
      unfold recAt
      dsimp only
      rw [he]
      rfl
    rw [hl, hr]
  · exact ⟨h1, h2, h3, h4, h5, h6⟩

end UpperInvariant

section UpperDrawLemmas

open Lottery MainUpper

lemma pickGo_nodup (value : Nat) :
    ∀ (l : List SaleRec) (fuel : Nat) (ws res : List Winner),
      (ws.map (·.ticketNumber)).Nodup → (ws.map (·.userId)).Nodup →
      pickGo value l fuel ws (ws.map (·.ticketNumber)) (ws.map (·.userId)) =
        some res →
      (res.map (·.ticketNumber)).Nodup ∧ (res.map (·.userId)).Nodup := by
  intro l
  induction l with
  | nil =>
      intro fuel ws res h1 h2 hp
      cases fuel with
      | zero =>
          simp only [pickGo, Option.some.injEq] at hp
          subst hp
          exact ⟨h1, h2⟩
      | succ k =>
          simp only [pickGo] at hp
          split at hp
          · obtain rfl : ws = res := by simpa using hp
            exact ⟨h1, h2⟩
          · cases hp
  | cons r rest ih =>
      intro fuel ws res h1 h2 hp
      cases fuel with
      | zero =>
          simp only [pickGo, Option.some.injEq] at hp
          subst hp
          exact ⟨h1, h2⟩
      | succ k =>
          simp only [pickGo] at hp
          split at hp
          · obtain rfl : ws = res := by simpa using hp
            exact ⟨h1, h2⟩
          · split at hp
            · exact ih k ws res h1 h2 hp
            · rename_i hlen hmem
              push_neg at hmem
              obtain ⟨hm1, hm2⟩ := hmem
              set w : Winner :=
                ⟨ws.length + 1, r.ticketNumber, r.buyerId,
                  (REWARDS value).getD ws.length 0⟩ with hw
              have e1 : (ws ++ [w]).map (·.ticketNumber) =
                  ws.map (·.ticketNumber) ++ [r.ticketNumber] := by
                simp [hw]
              have e2 : (ws ++ [w]).map (·.userId) =
                  ws.map (·.userId) ++ [r.buyerId] := by
                simp [hw]
              have hn1 : ((ws ++ [w]).map (·.ticketNumber)).Nodup := by
                rw [e1]
                exact nodup_snoc _ _ h1 hm1
              have hn2 : ((ws ++ [w]).map (·.userId)).Nodup := by
                rw [e2]
                exact nodup_snoc _ _ h2 hm2
              refine ih k (ws ++ [w]) res hn1 hn2 ?_
              rw [e1, e2]
              exact hp

lemma pickWinners_nodup (value : Nat) (sold : List SaleRec)
    (res : List Winner) (h : pickWinners value sold = some res) :
    (res.map (·.ticketNumber)).Nodup ∧ (res.map (·.userId)).Nodup := by
  refine pickGo_nodup value sold TOTAL_TICKETS_PER_VALUE [] res ?_ ?_ ?_
  · simp
  · simp
  · simpa [pickWinners] using h

lemma inv_draw {value : Nat} {s : State} (h : Inv s) (sh : List SaleRec) :
    Inv (applyDraw value s sh) := by
  obtain ⟨h1, h2, h3, h4, h5, h6⟩ := h
  unfold applyDraw conduct_draw
  split
  · exact ⟨h1, h2, h3, h4, h5, h6⟩
  · split
    · exact ⟨h1, h2, h3, h4, h5, h6⟩
    · rename_i ws hws
      refine ⟨Or.inl freshTickets_length, freshTickets_numbers_nodup,
        ?_, ?_, ?_, ?_⟩
      · intro n
        show (freshTickets.any fun t => t.number == n && t.isSold) =
          (([] : List SaleRec).any fun r => r.ticketNumber == n)
        rw [any_sold_fresh n]
        rfl
      · show ((s.draws ++ [(⟨ws, s.round⟩ : DrawRec)]).map (·.roundTag)).Nodup
        simp only [List.map_append, List.map_cons, List.map_nil]
        apply nodup_snoc _ _ h4
        intro hmem
        rw [List.mem_map] at hmem
        obtain ⟨d, hd, hdt⟩ := hmem
        have := h5 d hd
        omega
      · intro d hd
        rw [List.mem_append, List.mem_singleton] at hd
        rcases hd with hd | rfl
        · exact Nat.lt_succ_of_lt (h5 d hd)
        · exact Nat.lt_succ_self _
      · intro d hd
        rw [List.mem_append, List.mem_singleton] at hd
        rcases hd with hd | rfl
        · exact h6 d hd
        · exact pickWinners_nodup value sh ws hws

lemma inv_init0 : Inv init0 := by
  refine ⟨Or.inr ⟨rfl, rfl⟩, ?_, ?_, ?_, ?_, ?_⟩
  · exact List.nodup_nil
  · intro n
    rfl
  · exact List.nodup_nil
  · intro d hd
    cases hd
  · intro d hd
    cases hd

lemma inv_step {value : Nat} {s s' : State} (h : Inv s)
    (st : Step value s s') : Inv s' := by
  cases st with
  | setup => exact inv_setup h
  | commit n u f fr => exact inv_commit n u f fr h
  | draw sh hperm => exact inv_draw h sh

lemma inv_reachable {value : Nat} {s : State} (h : Reachable value s) :
    Inv s := by
  unfold Reachable at h
  induction h with
  | refl => exact inv_init0
  | tail hr st ih => exact inv_step ih st

lemma reachable_sellSeq {value : Nat} {s : State} (hs : Reachable value s) :
    ∀ k, Reachable value (sellSeq s k) := by
  intro k
  induction k with
  | zero => exact hs
  | succ k ih => exact Relation.ReflTransGen.tail ih (Step.commit _ _ _ _ _)

end UpperDrawLemmas

section LowerDrawLemmas

open Lottery MainLower

lemma findCandidate_not_drawn {eligible : List SaleRec} {drawnNums : List Nat}
    {drawnBuyers : List String} {r : SaleRec}
    (h : findCandidate eligible drawnNums drawnBuyers = some r) :
    r.ticketNumber ∉ drawnNums ∧ r.buyerId ∉ drawnBuyers := by
  have hp := List.find?_some h
  simp only [Bool.and_eq_true, Bool.not_eq_true'] at hp
  constructor
  · simpa using hp.1
  · simpa using hp.2

lemma pickLowerGo_nodup (rewards : List Nat) (eligible : List SaleRec) :
    ∀ (fuel i : Nat) (ws : List WinnerB),
      (ws.map (·.ticketId)).Nodup → (ws.map (·.winnerId)).Nodup →
      ((pickLowerGo rewards eligible fuel i ws (ws.map (·.ticketId))
          (ws.map (·.winnerId))).map (·.ticketId)).Nodup ∧
      ((pickLowerGo rewards eligible fuel i ws (ws.map (·.ticketId))
          (ws.map (·.winnerId))).map (·.winnerId)).Nodup := by
  intro fuel
  induction fuel with
  | zero =>
      intro i ws h1 h2
      exact ⟨h1, h2⟩
  | succ k ih =>
      intro i ws h1 h2
      cases hf : findCandidate eligible (ws.map (·.ticketId))
          (ws.map (·.winnerId)) with
      | none =>
          simp only [pickLowerGo, hf]
          exact ⟨h1, h2⟩
      | some r =>
          simp only [pickLowerGo, hf]
          obtain ⟨hm1, hm2⟩ := findCandidate_not_drawn hf
          set w : WinnerB :=
            ⟨i + 1, r.ticketNumber, r.buyerId, rewards.getD i 0⟩ with hw
          have e1 : (ws ++ [w]).map (·.ticketId) =
              ws.map (·.ticketId) ++ [r.ticketNumber] := by
            simp [hw]
          have e2 : (ws ++ [w]).map (·.winnerId) =
              ws.map (·.winnerId) ++ [r.buyerId] := by
            simp [hw]
          have hn1 : ((ws ++ [w]).map (·.ticketId)).Nodup := by
            rw [e1]
            exact nodup_snoc _ _ h1 hm1
          have hn2 : ((ws ++ [w]).map (·.winnerId)).Nodup := by
            rw [e2]
            exact nodup_snoc _ _ h2 hm2
          have := ih (i + 1) (ws ++ [w]) hn1 hn2
          rw [e1, e2] at this
          exact this

lemma pickLower_nodup (rewards : List Nat) (eligible : List SaleRec) :
    ((pickLower rewards eligible).map (·.ticketId)).Nodup ∧
    ((pickLower rewards eligible).map (·.winnerId)).Nodup := by
  have := pickLowerGo_nodup rewards eligible (min 3 eligible.length) 0 []
    List.nodup_nil List.nodup_nil
  simpa [pickLower] using this

lemma pickLowerGo_length_le (rewards : List Nat) (eligible : List SaleRec) :
    ∀ (fuel i : Nat) (ws : List WinnerB) (a : List Nat) (b : List String),
      (pickLowerGo rewards eligible fuel i ws a b).length ≤
        ws.length + fuel := by
  intro fuel
  induction fuel with
  | zero =>
      intro i ws a b
      simp [pickLowerGo]
  | succ k ih =>
      intro i ws a b
      cases hf : findCandidate eligible a b with
      | none =>
          simp [pickLowerGo, hf]
      | some r =>
          simp only [pickLowerGo, hf]
          have := ih (i + 1) (ws ++ [⟨i + 1, r.ticketNumber, r.buyerId,
            rewards.getD i 0⟩]) (a ++ [r.ticketNumber]) (b ++ [r.buyerId])
          simp only [List.length_append, List.length_cons, List.length_nil] at this
          omega

lemma pickLowerGo_length_ge (rewards : List Nat) (eligible : List SaleRec) :
    ∀ (fuel i : Nat) (ws : List WinnerB) (a : List Nat) (b : List String),
      ws.length ≤ (pickLowerGo rewards eligible fuel i ws a b).length := by
  intro fuel
  induction fuel with
  | zero =>
      intro i ws a b
      simp [pickLowerGo]
  | succ k ih =>
      intro i ws a b
      cases hf : findCandidate eligible a b with
      | none =>
          simp [pickLowerGo, hf]
      | some r =>
          simp only [pickLowerGo, hf]
          have := ih (i + 1) (ws ++ [⟨i + 1, r.ticketNumber, r.buyerId,
            rewards.getD i 0⟩]) (a ++ [r.ticketNumber]) (b ++ [r.buyerId])
          simp only [List.length_append, List.length_cons, List.length_nil] at this
          omega

lemma pickLower_length_le (rewards : List Nat) (eligible : List SaleRec) :
    (pickLower rewards eligible).length ≤ 3 := by
  have h := pickLowerGo_length_le rewards eligible (min 3 eligible.length) 0 [] [] []
  have : min 3 eligible.length ≤ 3 := min_le_left _ _
  unfold pickLower
  simp only [List.length_nil] at h
  omega

lemma pickLower_length_pos (rewards : List Nat) (eligible : List SaleRec)
    (h : 3 ≤ eligible.length) : 1 ≤ (pickLower rewards eligible).length := by
  obtain ⟨e, es, rfl⟩ : ∃ e es, eligible = e :: es := by
    cases eligible with
    | nil => simp at h
    | cons e es => exact ⟨e, es, rfl⟩
  have hmin : min 3 (e :: es).length = 3 := by
    simp only [List.length_cons] at h ⊢
    omega
  unfold pickLower
  rw [hmin]
  rw [show pickLowerGo rewards (e :: es) 3 0 [] [] [] =
      pickLowerGo rewards (e :: es) 2 1
        [⟨1, e.ticketNumber, e.buyerId, rewards.getD 0 0⟩]
        [e.ticketNumber] [e.buyerId] from rfl]
  have := pickLowerGo_length_ge rewards (e :: es) 2 1
    [⟨1, e.ticketNumber, e.buyerId, rewards.getD 0 0⟩]
    [e.ticketNumber] [e.buyerId]
  simpa using this

end LowerDrawLemmas

section UpperFullListLemma

open Lottery MainUpper

lemma pickGo_isSome (value : Nat) :
    ∀ (l : List SaleRec) (fuel : Nat) (ws : List Winner) (a : List Nat)
      (b : List String), fuel ≤ l.length →
      (pickGo value l fuel ws a b).isSome = true := by
  intro l
  induction l with
  | nil =>
      intro fuel ws a b h
      have : fuel = 0 := by simpa using h
      subst this
      simp [pickGo]
  | cons r rest ih =>
      intro fuel ws a b h
      cases fuel with
      | zero => simp [pickGo]
      | succ k =>
          simp only [pickGo]
          split
          · simp
          · split
            · exact ih k ws a b (by simpa using h)
            · exact ih k _ _ _ (by simpa using h)

end UpperFullListLemma

section StreamLemmas

open Lottery StreamOrder MainLower

lemma insertDoc_perm (p : String × TicketDoc)
    (l : List (String × TicketDoc)) : (insertDoc p l).Perm (p :: l) := by
  induction l with
  | nil => exact List.Perm.refl _
  | cons q rest ih =>
      unfold insertDoc
      split
      · exact List.Perm.refl _
      · exact (List.Perm.cons q ih).trans (List.Perm.swap p q rest)

lemma streamDocs_perm (l : List (String × TicketDoc)) :
    (streamDocs l).Perm l := by
  induction l with
  | nil => exact List.Perm.refl _
  | cons p rest ih =>
      unfold streamDocs
      exact (insertDoc_perm p (streamDocs rest)).trans (List.Perm.cons p ih)

lemma mem_get_available (docs : List (String × TicketDoc)) (n : Nat) :
    n ∈ get_available docs ↔
      ∃ d ∈ docs, d.2.isSold = false ∧ parseNat d.1.data = n := by
  unfold get_available
  rw [List.mem_map]
  constructor
  · rintro ⟨d, hd, rfl⟩
    rw [List.mem_filter] at hd
    exact ⟨d, (streamDocs_perm docs).mem_iff.mp hd.1,
      by simpa using hd.2, rfl⟩
  · rintro ⟨d, hd, hsold, rfl⟩
    refine ⟨d, ?_, rfl⟩
    rw [List.mem_filter]
    exact ⟨(streamDocs_perm docs).mem_iff.mpr hd, by simpa using hsold⟩

lemma mem_select_ticket_value (ts : List Ticket) (n : Nat) :
    n ∈ select_ticket_value_numbers ts ↔
      ∃ t ∈ ts, t.isSold = false ∧ t.number = n := by
  unfold select_ticket_value_numbers
  rw [(List.perm_insertionSort _ _).mem_iff]
  unfold availableB
  rw [List.mem_map]
  constructor
  · rintro ⟨t, ht, rfl⟩
    rw [List.mem_filter] at ht
    exact ⟨t, ht.1, by simpa using ht.2, rfl⟩
  · rintro ⟨t, ht, hsold, rfl⟩
    refine ⟨t, ?_, rfl⟩
    rw [List.mem_filter]
    exact ⟨ht, by simpa using hsold⟩

lemma select_ticket_value_sorted (ts : List Ticket) :
    (select_ticket_value_numbers ts).Sorted (· ≤ ·) :=
  List.sorted_insertionSort _ _

end StreamLemmas

section SupportLemmas

open Lottery MainUpper

lemma getD_mod_mem {l : List Nat} (k : Nat) (h : l.isEmpty = false) :
    l.getD (k % l.length) 0 ∈ l := by
  have hlen : 0 < l.length := by
    cases l with
    | nil => simp at h
    | cons a as => simp
  have hk : k % l.length < l.length := Nat.mod_lt _ hlen
  rw [List.getD_eq_getElem l 0 hk]
  exact List.getElem_mem hk

lemma availableNumbers_any (s : State) (n : Nat)
    (hn : n ∈ availableNumbers s) :
    s.tickets.any (fun t => t.number == n) = true := by
  unfold availableNumbers at hn
  rw [List.mem_map] at hn
  obtain ⟨t, ht, rfl⟩ := hn
  rw [List.mem_filter] at ht
  rw [List.any_eq_true]
  exact ⟨t, ht.1, by simp⟩

lemma award_loyalty_purchaseCount (s : State) (u : String) (k : Nat)
    (h : (availableNumbers s).isEmpty = false) :
    (award_loyalty_bonus s u k).purchaseCount = bumpCount s.purchaseCount u := by
  unfold award_loyalty_bonus
  rw [if_neg (by rw [h]; exact Bool.false_ne_true)]

lemma award_loyalty_registrations (s : State) (u : String) (k : Nat)
    (h : (availableNumbers s).isEmpty = false) :
    (award_loyalty_bonus s u k).registrations =
      s.registrations ++
        [⟨(availableNumbers s).getD (k % (availableNumbers s).length) 0, u,
          true, some "Loyalty Bonus"⟩] := by
  unfold award_loyalty_bonus
  rw [if_neg (by rw [h]; exact Bool.false_ne_true)]
  show (mark_as_sold s _ u true (some "Loyalty Bonus")).registrations = _
  unfold mark_as_sold
  rw [if_pos (availableNumbers_any s _ (getD_mod_mem k h))]

lemma reachable_stInit : Reachable 100 stInit :=
  Relation.ReflTransGen.tail Relation.ReflTransGen.refl (Step.setup init0)

lemma reachable_stFull : Reachable 100 stFull :=
  reachable_sellSeq reachable_stInit 100

lemma reachable_stDrawn : Reachable 100 stDrawn :=
  Relation.ReflTransGen.tail reachable_stFull
    (Step.draw stFull stFull.registrations (List.Perm.refl _))

lemma reachable_stAlice : Reachable 100 stAlice :=
  Relation.ReflTransGen.tail reachable_stInit
    (Step.commit stInit 1 "alice" false none)

lemma reachable_stBob : Reachable 100 stBob :=
  Relation.ReflTransGen.tail
    (Relation.ReflTransGen.tail reachable_stInit
      (Step.commit stInit 1 "alice" false none))
    (Step.commit stAlice 1 "bob" false none)

end SupportLemmas

section ClaimTheorems

open Lottery

/-- C1, counterexample.  Committing a sale for the already-Sold ticket 5
through Main.py's mark_as_sold does not return Conflict and does not leave
the store unchanged: the ticket's owner is silently overwritten from alice
to bob and a second sale record is appended, so the same number is re-sold
to a second buyer. -/
theorem mark_as_sold_resells_sold_ticket :
    MainUpper.mark_as_sold exSold 5 "bob" false none ≠ exSold
    ∧ (MainUpper.mark_as_sold exSold 5 "bob" false none).tickets.any
        (fun t => t.number == 5 && t.buyerId == some "bob") = true
    ∧ (MainUpper.mark_as_sold exSold 5 "bob" false none).registrations.length =
        exSold.registrations.length + 1 := by
  refine ⟨by decide, by decide, by decide⟩

/-- C1, amended.  In the direct purchase confirmation path of main.py
(process_payment_proof), committing a sale for a ticket whose document is
already Sold (or missing) is refused: the caller is told the number has
just been sold and the store — ticket states, owners and the sale-record
log — is left unchanged.  The admin verification path has no such check
(see the counterexample). -/
theorem direct_purchase_refuses_sold_ticket (value : Nat)
    (s : MainLower.StateB) (n : Nat) (u : String)
    (h : ∀ t ∈ s.tickets, t.number = n → t.isSold = true) :
    MainLower.process_payment_commit value s n u = (s, .alreadySold) := by
  unfold MainLower.process_payment_commit
  cases hf : s.tickets.find? (fun t => t.number == n) with
  | none => rfl
  | some t =>
      have ht := List.mem_of_find?_eq_some hf
      have hp := List.find?_some hf
      have hsold : t.isSold = true := h t ht (by simpa using hp)
      dsimp only
      rw [if_pos hsold]

/-- Witness for C1's amended theorem at a concrete store whose ticket 3 is
sold. -/
theorem direct_purchase_refuses_sold_ticket_witness :
    MainLower.process_payment_commit 100 exLowerSold 3 "bob" =
      (exLowerSold, .alreadySold) :=
  direct_purchase_refuses_sold_ticket 100 exLowerSold 3 "bob" (by decide)

set_option maxRecDepth 40000 in
/-- C2, counterexample.  A reachable store state (startup initialization,
then admin verification of two pending payments for the same number 1, the
first for alice, the second for bob) in which the Sold ticket 1 has two
sale records numbered 1 — not exactly one — and alice's record matches no
ticket owned by alice. -/
theorem double_verification_duplicates_sale_record :
    MainUpper.Reachable 100 stBob
    ∧ stBob.tickets.any (fun t => t.number == 1 && t.isSold) = true
    ∧ (stBob.registrations.filter (fun r => r.ticketNumber == 1)).length = 2
    ∧ stBob.tickets.any
        (fun t => t.number == 1 && t.buyerId == some "alice") = false := by
  refine ⟨reachable_stBob, by decide, by decide, by decide⟩

/-- C2, amended.  In every reachable store state the ticket numbers are
pairwise distinct and a number belongs to a Sold ticket exactly when some
sale record of the round carries it — the distinct-pair sets coincide.
What fails in the original claim is only the "exactly one record per Sold
ticket" part: a second verification of the same number adds a duplicate
record (see the counterexample). -/
theorem sold_tickets_match_sale_records (value : Nat) (s : MainUpper.State)
    (h : MainUpper.Reachable value s) :
    (s.tickets.map (·.number)).Nodup
    ∧ ∀ n, MainUpper.soldAt s n = MainUpper.recAt s n := by
  have hi := inv_reachable h
  exact ⟨hi.2.1, hi.2.2.1⟩

/-- Witness for C2's amended theorem at the reachable store with ticket 1
sold to alice. -/
theorem sold_tickets_match_sale_records_witness :
    (stAlice.tickets.map (·.number)).Nodup
    ∧ MainUpper.soldAt stAlice 1 = MainUpper.recAt stAlice 1 :=
  ⟨(sold_tickets_match_sale_records 100 stAlice reachable_stAlice).1,
   (sold_tickets_match_sale_records 100 stAlice reachable_stAlice).2 1⟩

set_option maxRecDepth 40000 in
/-- C3, counterexample.  The draw trigger of Main.py's verify_payment is
only the sold-ticket count: in a store whose pool is fully sold but which
already holds a draw record for the current round, the trigger still
fires, and running the draw then creates a second draw record — the
claimed "no Draw Record yet exists" conjunct is not part of the code's
trigger condition. -/
theorem draw_trigger_ignores_existing_draw_record :
    MainUpper.drawTrigger exC3 = true
    ∧ exC3.draws.any (fun d => d.roundTag == exC3.round) = true
    ∧ (MainUpper.applyDraw 100 exC3 exC3.registrations).draws.length = 2 := by
  refine ⟨by decide, by decide, ?_⟩
  decide

/-- C3, amended.  The code's trigger is solely "count of sold tickets ≥
poolSize" with no draw-record existence check; nevertheless, in the
sequential model every reachable store has pairwise distinct round tags on
its draw records — at most one draw per round — because a completed draw
immediately resets the pool and advances the round. -/
theorem at_most_one_draw_per_round (value : Nat) (s : MainUpper.State)
    (h : MainUpper.Reachable value s) :
    (s.draws.map (·.roundTag)).Nodup :=
  (inv_reachable h).2.2.2.1

/-- Witness for C3's amended theorem at the reachable store that has gone
through a full round and its automatic draw. -/
theorem at_most_one_draw_per_round_witness :
    (stDrawn.draws.map (·.roundTag)).Nodup :=
  at_most_one_draw_per_round 100 stDrawn reachable_stDrawn

/-- C4.  In every draw record of every reachable Main.py store the winners
are pairwise distinct both in ticket number and in buyer id, and the same
holds for every winner list produced by main.py's selection loop: the
greedy skip over the shuffled records never picks a drawn ticket number or
a buyer who already won a rank. -/
theorem draw_winners_pairwise_distinct (value : Nat) (s : MainUpper.State)
    (h : MainUpper.Reachable value s) :
    (∀ d ∈ s.draws, (d.winners.map (·.ticketNumber)).Nodup
        ∧ (d.winners.map (·.userId)).Nodup)
    ∧ ∀ (rewards : List Nat) (eligible : List SaleRec),
        ((MainLower.pickLower rewards eligible).map (·.ticketId)).Nodup
        ∧ ((MainLower.pickLower rewards eligible).map (·.winnerId)).Nodup :=
  ⟨(inv_reachable h).2.2.2.2.2, fun rewards el => pickLower_nodup rewards el⟩

set_option maxRecDepth 40000 in
/-- Witness for C4 at the draw record actually created by the full-round
reachable execution. -/
theorem draw_winners_pairwise_distinct_witness :
    ((⟨[⟨1, 1, "u1", 5000⟩, ⟨2, 2, "u2", 2000⟩, ⟨3, 3, "u3", 1000⟩], 0⟩ :
        MainUpper.DrawRec).winners.map (·.ticketNumber)).Nodup
    ∧ ((⟨[⟨1, 1, "u1", 5000⟩, ⟨2, 2, "u2", 2000⟩, ⟨3, 3, "u3", 1000⟩], 0⟩ :
        MainUpper.DrawRec).winners.map (·.userId)).Nodup :=
  (draw_winners_pairwise_distinct 100 stDrawn reachable_stDrawn).1
    ⟨[⟨1, 1, "u1", 5000⟩, ⟨2, 2, "u2", 2000⟩, ⟨3, 3, "u3", 1000⟩], 0⟩
    (by decide)

/-- C5.  A draw attempt over fewer than 3 sale records aborts as
insufficient in both implementations: the outcome is the postponement
message, the store — pool, sale records, draw records, balances — is
returned untouched, and no rollover happens. -/
theorem insufficient_entries_draw_untouched (value : Nat)
    (sU : MainUpper.State) (shufU : List SaleRec)
    (sL : MainLower.StateB) (shufL : List SaleRec)
    (hU : shufU.length < 3) (hL : shufL.length < 3) :
    MainUpper.conduct_draw value sU shufU = (sU, .insufficientEntries)
    ∧ MainLower.conduct_lottery_draw value sL shufL =
        (sL, .insufficientEntries) := by
  constructor
  · unfold MainUpper.conduct_draw
    rw [if_pos hU]
  · unfold MainLower.conduct_lottery_draw
    rw [if_pos hL]

/-- Witness for C5 at concrete two-sale stores. -/
theorem insufficient_entries_draw_untouched_witness :
    MainUpper.conduct_draw 100 exC5U exC5U.registrations =
      (exC5U, .insufficientEntries)
    ∧ MainLower.conduct_lottery_draw 100 exC5L exC5L.registrations =
      (exC5L, .insufficientEntries) :=
  insufficient_entries_draw_untouched 100 exC5U exC5U.registrations exC5L
    exC5L.registrations (by decide) (by decide)

set_option maxRecDepth 40000 in
/-- C6, counterexample.  A forced Main.py draw over exactly 3 sale records
all owned by one buyer does not complete with fewer than 3 winners: the
selection loop indexes past the end of the record list (IndexError), the
exception is caught, and no draw record is created. -/
theorem forced_draw_three_records_one_buyer_fails :
    3 ≤ exC6.registrations.length
    ∧ MainUpper.conduct_draw 100 exC6 exC6.registrations =
        (exC6, .indexError) := by
  refine ⟨by decide, by decide⟩

/-- C6, amended.  main.py's conduct_lottery_draw does complete with fewer
than 3 winners whenever at least 3 sale records exist: a draw record with
between 1 and 3 winners is created.  Main.py's conduct_draw also completes
whenever the record list has at least poolSize entries — the only case its
own trigger produces — but a forced draw on a shorter list with fewer than
3 findable winners aborts with an index error (see the counterexample). -/
theorem draw_completes_with_fewer_winners (value : Nat)
    (s : MainLower.StateB) (shuffled : List SaleRec)
    (h3 : 3 ≤ shuffled.length) :
    MainLower.conduct_lottery_draw value s shuffled =
      ({ s with draws := s.draws ++
          [⟨MainLower.pickLower (REWARDS value) shuffled⟩] }, .completed)
    ∧ 1 ≤ (MainLower.pickLower (REWARDS value) shuffled).length
    ∧ (MainLower.pickLower (REWARDS value) shuffled).length ≤ 3
    ∧ ∀ (sU : MainUpper.State) (shufU : List SaleRec),
        TOTAL_TICKETS_PER_VALUE ≤ shufU.length →
        (MainUpper.conduct_draw value sU shufU).2 = .completed := by
  refine ⟨?_, pickLower_length_pos _ _ h3, pickLower_length_le _ _, ?_⟩
  · unfold MainLower.conduct_lottery_draw
    rw [if_neg (by omega)]
  · intro sU shufU hfull
    unfold MainUpper.conduct_draw
    rw [if_neg (by unfold TOTAL_TICKETS_PER_VALUE at hfull; omega)]
    have hsome := pickGo_isSome value shufU TOTAL_TICKETS_PER_VALUE [] [] [] hfull
    rw [Option.isSome_iff_exists] at hsome
    obtain ⟨ws, hws⟩ := hsome
    rw [show MainUpper.pickWinners value shufU =
      MainUpper.pickGo value shufU TOTAL_TICKETS_PER_VALUE [] [] [] from rfl]
    rw [hws]

/-- Witness for C6's amended theorem at the three-records-one-buyer round:
main.py creates a draw record with a single winner. -/
theorem draw_completes_with_fewer_winners_witness :
    MainLower.conduct_lottery_draw 100 exC6L exRegs3 =
      ({ exC6L with draws := exC6L.draws ++
          [⟨MainLower.pickLower (REWARDS 100) exRegs3⟩] }, .completed)
    ∧ 1 ≤ (MainLower.pickLower (REWARDS 100) exRegs3).length
    ∧ (MainLower.pickLower (REWARDS 100) exRegs3).length ≤ 3 :=
  ⟨(draw_completes_with_fewer_winners 100 exC6L exRegs3 (by decide)).1,
   (draw_completes_with_fewer_winners 100 exC6L exRegs3 (by decide)).2.1,
   (draw_completes_with_fewer_winners 100 exC6L exRegs3 (by decide)).2.2.1⟩

/-- C7.  For an eligible user (at least 10 invited users, bonus not yet
claimed) with a free-pool ticket available, the first referral claim
awards exactly one free referral ticket — one new sale record — and sets
referralBonusClaimed; the immediately following second claim is refused
with the already-claimed answer and changes nothing. -/
theorem referral_bonus_single_claim (s : MainLower.StateB) (u : String)
    (k k' : Nat)
    (h1 : 10 ≤ s.user.invitedUsersCount)
    (h2 : s.user.referralBonusClaimed = false)
    (h3 : (MainLower.availableB s.tickets).isEmpty = false) :
    ∃ n s', MainLower.claim_referral_bonus s u k = (s', .claimed n)
      ∧ s'.user.referralBonusClaimed = true
      ∧ s'.registrations =
          s.registrations ++ [⟨n, u, true, some "Referral Bonus"⟩]
      ∧ MainLower.claim_referral_bonus s' u k' =
          (s', .notEligibleOrClaimed) := by
  refine ⟨(MainLower.availableB s.tickets).getD
      (k % (MainLower.availableB s.tickets).length) 0,
    { s with
        tickets := MainLower.markMap s.tickets
          ((MainLower.availableB s.tickets).getD
            (k % (MainLower.availableB s.tickets).length) 0)
          u true (some "Referral Bonus"),
        registrations := s.registrations ++
          [⟨(MainLower.availableB s.tickets).getD
              (k % (MainLower.availableB s.tickets).length) 0,
            u, true, some "Referral Bonus"⟩],
        user := { s.user with referralBonusClaimed := true } },
    ?_, rfl, rfl, ?_⟩
  · unfold MainLower.claim_referral_bonus
    rw [if_pos ⟨h1, h2⟩]
    dsimp only
    rw [if_neg (by rw [h3]; exact Bool.false_ne_true)]
  · unfold MainLower.claim_referral_bonus
    rw [if_neg (fun hc => Bool.noConfusion hc.2)]

/-- Witness for C7 at a concrete eligible user with two available 200-Birr
tickets. -/
theorem referral_bonus_single_claim_witness :
    ∃ n s', MainLower.claim_referral_bonus exC7 "dave" 0 = (s', .claimed n)
      ∧ s'.user.referralBonusClaimed = true
      ∧ s'.registrations =
          exC7.registrations ++ [⟨n, "dave", true, some "Referral Bonus"⟩]
      ∧ MainLower.claim_referral_bonus s' "dave" 1 =
          (s', .notEligibleOrClaimed) :=
  referral_bonus_single_claim exC7 "dave" 0 1 (by decide) (by decide)
    (by decide)

/-- C8, counterexample.  main.py's award_loyalty_bonus mints a free
loyalty ticket — the pool gains a sold free ticket and a sale record — but
the buyer's ticketsBoughtCount is left unchanged, not incremented as for a
normal purchase. -/
theorem lower_loyalty_bonus_skips_purchase_count :
    (MainLower.award_loyalty_bonus exC8 "carol" 0).user = exC8.user
    ∧ (MainLower.award_loyalty_bonus exC8 "carol" 0).registrations.length =
        exC8.registrations.length + 1
    ∧ (MainLower.award_loyalty_bonus exC8 "carol" 0).tickets.any
        (fun t => t.isSold && t.isFree) = true := by
  refine ⟨by decide, by decide, by decide⟩

/-- C8, amended.  Main.py's award_loyalty_bonus does count the free ticket
like a normal purchase: whenever a ticket is available the award appends
one sale record and increments the buyer's purchase counter for the
denomination by exactly one.  main.py's sibling function does not (see the
counterexample). -/
theorem loyalty_bonus_counts_like_purchase (s : MainUpper.State)
    (u : String) (k : Nat)
    (h : (MainUpper.availableNumbers s).isEmpty = false) :
    countOf (MainUpper.award_loyalty_bonus s u k).purchaseCount u =
      countOf s.purchaseCount u + 1
    ∧ (MainUpper.award_loyalty_bonus s u k).registrations.length =
      s.registrations.length + 1 := by
  constructor
  · rw [award_loyalty_purchaseCount s u k h]
    exact countOf_bumpCount _ u
  · rw [award_loyalty_registrations s u k h]
    simp

/-- Witness for C8's amended theorem at a concrete store with one
available ticket and a buyer holding 9 tickets. -/
theorem loyalty_bonus_counts_like_purchase_witness :
    countOf (MainUpper.award_loyalty_bonus exC8U "dave" 0).purchaseCount
        "dave" = countOf exC8U.purchaseCount "dave" + 1
    ∧ (MainUpper.award_loyalty_bonus exC8U "dave" 0).registrations.length =
        exC8U.registrations.length + 1 :=
  loyalty_bonus_counts_like_purchase exC8U "dave" 0 (by decide)

/-- C9, counterexample.  With the unsold documents "1", "10" and "2" in
the store, Main.py's get_available streams them in document-id order and
returns [1, 10, 2] — exactly the available numbers, but not in ascending
numeric order. -/
theorem get_available_not_numerically_sorted :
    StreamOrder.get_available exDocs = [1, 10, 2]
    ∧ ¬ (StreamOrder.get_available exDocs).Sorted (· ≤ ·) := by
  refine ⟨by decide, by decide⟩

/-- C9, amended.  Main.py's get_available returns exactly the numbers of
the Available ticket documents, but in lexicographic document-id order,
not ascending numeric order; the main.py selection path
(select_ticket_value) additionally sorts, returning exactly the Available
numbers in ascending order. -/
theorem available_listing_amended :
    (∀ (docs : List (String × StreamOrder.TicketDoc)) (n : Nat),
        n ∈ StreamOrder.get_available docs ↔
          ∃ d ∈ docs, d.2.isSold = false ∧ StreamOrder.parseNat d.1.data = n)
    ∧ ∀ ts : List Ticket,
        (MainLower.select_ticket_value_numbers ts).Sorted (· ≤ ·)
        ∧ ∀ n, n ∈ MainLower.select_ticket_value_numbers ts ↔
            ∃ t ∈ ts, t.isSold = false ∧ t.number = n :=
  ⟨mem_get_available,
   fun ts => ⟨select_ticket_value_sorted ts, mem_select_ticket_value ts⟩⟩

/-- C10.  Round initialization is idempotent in both implementations: a
Main.py store already holding poolSize ticket documents is returned
unchanged (numbers, states and owners untouched), and a main.py collection
whose id set already has poolSize elements is returned unchanged. -/
theorem init_tickets_idempotent (sU : MainUpper.State) (ts : List Ticket)
    (hU : TOTAL_TICKETS_PER_VALUE ≤ sU.tickets.length)
    (hL : TOTAL_TICKETS_PER_VALUE ≤ ((ts.map (·.number)).dedup).length) :
    MainUpper.init_tickets sU = sU
    ∧ MainLower.init_tickets_firestore ts = ts := by
  constructor
  · unfold MainUpper.init_tickets
    rw [if_neg (by omega)]
  · unfold MainLower.init_tickets_firestore
    dsimp only
    rw [if_neg (by omega)]

set_option maxRecDepth 40000 in
/-- Witness for C10 at the freshly initialized full pool. -/
theorem init_tickets_idempotent_witness :
    MainUpper.init_tickets stInit = stInit
    ∧ MainLower.init_tickets_firestore freshTickets = freshTickets :=
  init_tickets_idempotent stInit freshTickets (by decide) (by decide)

end ClaimTheorems
